import Mathlib

/-!
Verification development for the referral-bonus conversational bot
(single source file `src/main.py`).

The Python program is shallowly embedded:
* the SQLite `users` table becomes a `List UserRecord` scanned in order
  (`SELECT ... WHERE telegram_id = ?` is a first-match scan, `UPDATE ...
  WHERE telegram_id = ?` maps over all matching rows);
* `CURRENT_TIMESTAMP` becomes an explicit `now : Nat` argument;
* the process-wide configuration (`ADMIN_USER_ID`, `ADMIN_CHANNEL_ID`,
  `REF_CODE`, `RATE_LIMIT_SECONDS`) becomes a `Config` record;
* the process-wide rate map and the aiogram FSM awaiting-state become
  explicit fields of a `BotState`;
* outbound sends are pure `Reply` intents; success of the best-effort
  admin notification and per-user broadcast delivery is an oracle.

Python string primitives used by the handlers (`strip`, `split`,
`split(maxsplit=1)`, `lower`, `capitalize`, `int(...)`) are modelled by
structurally recursive functions over the character list so that every
definition evaluates by `rfl` or `decide`.
-/

namespace ReferralBot

/-- Row of the `users` table (schema in `db_init`, src/main.py lines 70-82).
`signed_up` and `bonus_claimed` are stored as 0/1 integers in SQLite and
modelled as booleans; `status` is free text at the store level (validation
happens in the admin command handler). -/
structure UserRecord where
  telegram_id : Int
  tg_username : Option String
  referral_agent : Option String
  signed_up : Bool
  bonus_claimed : Bool
  platform_username : Option String
  status : String
  created_at : Nat
  updated_at : Nat
  deriving Repr, DecidableEq

/-- Process-wide configuration read from the environment at startup
(src/main.py lines 33-41). `ADMIN_USER_ID` is `None` when unset or zero;
`ADMIN_CHANNEL_ID` is `None` when unset or empty. -/
structure Config where
  ADMIN_USER_ID : Option Int
  ADMIN_CHANNEL_ID : Option String
  REF_CODE : String
  RATE_LIMIT_SECONDS : Nat

/-- An inbound chat message: chat identity, sender identity, optional
sender handle, and the text body. -/
structure InMsg where
  chat_id : Int
  from_id : Int
  from_username : Option String
  text : String

/-- Outbound message intents.  Message bodies are presentation glue; each
constructor stands for one distinct send site in the handlers, carrying
the data that the corresponding text interpolates. -/
inductive Reply where
  | welcome
  | retryLater
  | claimInstructions
  | donePrompt
  | statusView (r : UserRecord)
  | helpText
  | invalidUsernameWarning
  | adminSummary (tid : Int) (tgName : Option String) (ref : Option String)
      (platformName : String) (status : String)
  | submissionCompleteOk
  | submissionReceived
  | notAllowedHere
  | notAllowed
  | usageSetstatus
  | invalidTelegramId
  | statusMustBe
  | userNotFound
  | updatedStatus (tid : Int) (st : String)
  | statusNotice (tid : Int) (st : String)
  | exportCsv (rows : List (List String))
  | statsText (total : Nat) (byStatus : List (String × Nat))
  | usageBroadcast
  | broadcastMsg (uid : Int) (text : String)
  | broadcastSent (n : Nat)
  deriving Repr, DecidableEq

/-- In-process mutable state: the users table, the rate-limit map
`user_last_action` (a dict with default 0) and the per-user FSM flag for
`BonusFlow.awaiting_platform_username`. -/
structure BotState where
  db : List UserRecord
  rate : Int → Nat
  awaiting : Int → Bool

/-! ### Python string primitives -/

/-- Python `str.strip()`: drop whitespace from both ends. -/
def pyStrip (s : String) : String :=
  String.mk (((s.data.dropWhile Char.isWhitespace).reverse.dropWhile
    Char.isWhitespace).reverse)

/-- Python `str.lower()` (ASCII, which is all the dispatcher compares). -/
def pyLower (s : String) : String :=
  String.mk (s.data.map Char.toLower)

/-- Python `str.capitalize()`: first character upper-cased, the rest
lower-cased. -/
def pyCapitalize (s : String) : String :=
  match s.data with
  | [] => ""
  | c :: rest => String.mk (c.toUpper :: rest.map Char.toLower)

/-- Helper for Python `str.split()`: split a character list on whitespace
runs, dropping empty tokens; `acc` is the current token reversed. -/
def wsSplitAux : List Char → List Char → List (List Char)
  | [], acc => if acc.isEmpty then [] else [acc.reverse]
  | c :: cs, acc =>
    if c.isWhitespace then
      if acc.isEmpty then wsSplitAux cs [] else acc.reverse :: wsSplitAux cs []
    else wsSplitAux cs (c :: acc)

/-- Python `str.split()` with no arguments. -/
def pySplit (s : String) : List String :=
  (wsSplitAux s.data []).map String.mk

/-- Python `str.split(maxsplit=1)`: first whitespace-delimited token, then
the remainder of the string with the separator run removed. -/
def pySplitMax1 (s : String) : List String :=
  let l := s.data.dropWhile Char.isWhitespace
  if l.isEmpty then []
  else
    let tok := l.takeWhile (fun c => !c.isWhitespace)
    let rest := (l.dropWhile (fun c => !c.isWhitespace)).dropWhile Char.isWhitespace
    if rest.isEmpty then [String.mk tok] else [String.mk tok, String.mk rest]

/-- Digit-string accumulator for `int(...)`. -/
def natOfDigitsAux : List Char → Nat → Option Nat
  | [], acc => some acc
  | c :: cs, acc =>
    if c.isDigit then natOfDigitsAux cs (acc * 10 + (c.toNat - 48)) else none

/-- Python `int(s)` restricted to an optional sign followed by digits
(`ValueError`, i.e. `none`, otherwise). -/
def pyInt (s : String) : Option Int :=
  match s.data with
  | [] => none
  | '-' :: rest =>
    if rest.isEmpty then none
    else (natOfDigitsAux rest 0).map (fun n => -(n : Int))
  | '+' :: rest =>
    if rest.isEmpty then none
    else (natOfDigitsAux rest 0).map (fun n => (n : Int))
  | l => (natOfDigitsAux l 0).map (fun n => (n : Int))

/-- Python `str(x)` on an optional string: `None` prints as `"None"`. -/
def pyStrOpt (o : Option String) : String :=
  match o with
  | some s => s
  | none => "None"

/-! ### Record store (Database Functions, src/main.py lines 60-153) -/

/-- First row with the given `telegram_id`
(`SELECT * FROM users WHERE telegram_id = ?` + `fetchone()`). -/
def findUser : List UserRecord → Int → Option UserRecord
  | [], _ => none
  | r :: rest, tid => if r.telegram_id = tid then some r else findUser rest tid

/-- Apply `f` to every row matching `tid`
(`UPDATE users SET ... WHERE telegram_id = ?`). -/
def updateWhere (f : UserRecord → UserRecord) (tid : Int) :
    List UserRecord → List UserRecord
  | [] => []
  | r :: rest =>
    (if r.telegram_id = tid then f r else r) :: updateWhere f tid rest

/-- The freshly inserted row of `get_or_create_user`: schema defaults plus
the three explicit columns, with `referral_agent` taken from the
process-wide `REF_CODE` (src/main.py lines 102-109). -/
def newUser (cfg : Config) (now : Nat) (telegram_id : Int)
    (username : Option String) : UserRecord :=
  { telegram_id := telegram_id
    tg_username := username
    referral_agent := some cfg.REF_CODE
    signed_up := false
    bonus_claimed := false
    platform_username := none
    status := "Pending"
    created_at := now
    updated_at := now }

/-- Embeds `get_or_create_user` (src/main.py lines 92-115): return the
existing row, or insert a new one and return it. -/
def get_or_create_user (cfg : Config) (now : Nat) (db : List UserRecord)
    (telegram_id : Int) (username : Option String) :
    List UserRecord × UserRecord :=
  match findUser db telegram_id with
  | some r => (db, r)
  | none =>
    (db ++ [newUser cfg now telegram_id username],
     newUser cfg now telegram_id username)

/-- Embeds `mark_signed_up` (src/main.py lines 117-124). -/
def mark_signed_up (now : Nat) (db : List UserRecord) (telegram_id : Int) :
    List UserRecord :=
  updateWhere (fun r => { r with signed_up := true, updated_at := now })
    telegram_id db

/-- Embeds `save_platform_username` (src/main.py lines 126-137). -/
def save_platform_username (now : Nat) (db : List UserRecord)
    (telegram_id : Int) (platform_username : String) : List UserRecord :=
  updateWhere (fun r =>
      { r with platform_username := some platform_username,
               bonus_claimed := true, updated_at := now })
    telegram_id db

/-- Embeds `set_status` (src/main.py lines 139-153): `false` and an
untouched table when the row is absent, otherwise update status and
timestamp and return `true`. -/
def set_status (now : Nat) (db : List UserRecord) (telegram_id : Int)
    (status : String) : List UserRecord × Bool :=
  match findUser db telegram_id with
  | none => (db, false)
  | some _ =>
    (updateWhere (fun r => { r with status := status, updated_at := now })
      telegram_id db, true)

/-- Embeds `can_proceed` (src/main.py lines 176-183): rejection leaves the
rate map untouched, acceptance stamps `now`. -/
def can_proceed (cfg : Config) (now : Nat) (rate : Int → Nat)
    (user_id : Int) : (Int → Nat) × Bool :=
  let last := rate user_id
  if now - last < cfg.RATE_LIMIT_SECONDS then (rate, false)
  else ((fun x => if x = user_id then now else rate x), true)

/-! ### Handlers (register_handlers, src/main.py lines 201-477) -/

/-- Oracle for the best-effort outbound sends: whether the admin-channel
notification succeeds and which per-user broadcast deliveries succeed. -/
structure Oracle where
  adminNotifyOk : Bool
  deliverOk : Int → Bool

/-- Embeds `start_cmd` (src/main.py lines 207-222). -/
def start_cmd (cfg : Config) (now : Nat) (st : BotState) (m : InMsg) :
    BotState × List Reply :=
  let g := get_or_create_user cfg now st.db m.from_id m.from_username
  ({ st with db := g.1 }, [Reply.welcome])

/-- Embeds `claim_bonus_btn` (src/main.py lines 224-242): the only
rate-gated handler. -/
def claim_bonus_btn (cfg : Config) (now : Nat) (st : BotState) (m : InMsg) :
    BotState × List Reply :=
  let res := can_proceed cfg now st.rate m.from_id
  if res.2 then
    let g := get_or_create_user cfg now st.db m.from_id m.from_username
    ({ st with db := g.1, rate := res.1 }, [Reply.claimInstructions])
  else
    ({ st with rate := res.1 }, [Reply.retryLater])

/-- Embeds `done_requirements` (src/main.py lines 244-253): marks the user
signed up (without creating a row first) and enters the
awaiting-platform-username sub-state. -/
def done_requirements (now : Nat) (st : BotState) (m : InMsg) :
    BotState × List Reply :=
  ({ st with db := mark_signed_up now st.db m.from_id,
             awaiting := fun x => if x = m.from_id then true else st.awaiting x },
   [Reply.donePrompt])

/-- Embeds `status_btn` (src/main.py lines 255-274). -/
def status_btn (cfg : Config) (now : Nat) (st : BotState) (m : InMsg) :
    BotState × List Reply :=
  let g := get_or_create_user cfg now st.db m.from_id m.from_username
  ({ st with db := g.1 }, [Reply.statusView g.2])

/-- Embeds `help_btn` (src/main.py lines 276-289): static text, no store
access. -/
def help_btn (st : BotState) (m : InMsg) : BotState × List Reply :=
  (st, [Reply.helpText])

/-- Embeds `receive_platform_username` (src/main.py lines 291-344): trim,
validate length, persist, look the row up again, attempt the admin
notification (best-effort) and confirm to the user either way, then clear
the sub-state. -/
def receive_platform_username (cfg : Config) (now : Nat) (notifyOk : Bool)
    (st : BotState) (m : InMsg) : BotState × List Reply :=
  let platform_username := pyStrip m.text
  if platform_username.length < 2 then
    (st, [Reply.invalidUsernameWarning])
  else
    let db1 := save_platform_username now st.db m.from_id platform_username
    let g := get_or_create_user cfg now db1 m.from_id m.from_username
    let user := g.2
    ({ st with db := g.1,
               awaiting := fun x => if x = m.from_id then false else st.awaiting x },
     [Reply.adminSummary user.telegram_id user.tg_username user.referral_agent
        platform_username user.status,
      if notifyOk then Reply.submissionCompleteOk else Reply.submissionReceived])

/-- Admin check `str(message.chat.id) == str(ADMIN_CHANNEL_ID)` (Python
prints a missing channel id as the string `None`). -/
def in_admin_channel (cfg : Config) (m : InMsg) : Bool :=
  toString m.chat_id == pyStrOpt cfg.ADMIN_CHANNEL_ID

/-- Admin check `ADMIN_USER_ID and (message.from_user.id == ADMIN_USER_ID)`. -/
def from_admin_user (cfg : Config) (m : InMsg) : Bool :=
  match cfg.ADMIN_USER_ID with
  | none => false
  | some a => m.from_id == a

/-- Embeds `setstatus_cmd` (src/main.py lines 349-384): authorization,
argument count, integer parse, `capitalize`-normalized closed enum, then
`set_status`. -/
def setstatus_cmd (cfg : Config) (now : Nat) (st : BotState) (m : InMsg) :
    BotState × List Reply :=
  if in_admin_channel cfg m || from_admin_user cfg m then
    match pySplit m.text with
    | [_, idStr, stStr] =>
      match pyInt idStr with
      | none => (st, [Reply.invalidTelegramId])
      | some target_id =>
        let new_status := pyCapitalize stStr
        if new_status = "Pending" ∨ new_status = "Verified" ∨
            new_status = "Rejected" then
          let res := set_status now st.db target_id new_status
          if res.2 then
            ({ st with db := res.1 },
             [Reply.updatedStatus target_id new_status,
              Reply.statusNotice target_id new_status])
          else (st, [Reply.userNotFound])
        else (st, [Reply.statusMustBe])
    | _ => (st, [Reply.usageSetstatus])
  else (st, [Reply.notAllowedHere])

/-- A `None` optional column prints as the empty CSV cell. -/
def optCell (o : Option String) : String :=
  match o with
  | some s => s
  | none => ""

/-- SQLite 0/1 integer column as a CSV cell. -/
def intCell (b : Bool) : String := if b then "1" else "0"

/-- One data row written by `export_csv_cmd` (src/main.py lines 412-422):
note that the third cell is the process-wide `REF_CODE`, not the row
column `referral_agent` fetched by the SELECT. -/
def export_row (cfg : Config) (r : UserRecord) : List String :=
  [toString r.telegram_id, optCell r.tg_username, cfg.REF_CODE,
   intCell r.signed_up, intCell r.bonus_claimed, optCell r.platform_username,
   r.status, toString r.updated_at]

/-- CSV header row written by `export_csv_cmd` (src/main.py lines 402-411). -/
def export_header : List String :=
  ["telegram_id", "tg_username", "referral_agent", "signed_up",
   "bonus_claimed", "platform_username", "status", "updated_at"]

/-- Embeds `export_csv_cmd` (src/main.py lines 386-424). -/
def export_csv_cmd (cfg : Config) (st : BotState) (m : InMsg) :
    BotState × List Reply :=
  if in_admin_channel cfg m || from_admin_user cfg m then
    (st, [Reply.exportCsv (export_header :: st.db.map (export_row cfg))])
  else (st, [Reply.notAllowed])

/-- `SELECT status, COUNT(*) FROM users GROUP BY status`, grouped in first
occurrence order. -/
def count_by_status (db : List UserRecord) : List (String × Nat) :=
  (db.map (fun r => r.status)).foldl
    (fun acc s =>
      if acc.any (fun p => p.1 == s) then
        acc.map (fun p => if p.1 == s then (p.1, p.2 + 1) else p)
      else acc ++ [(s, 1)]) []

/-- Embeds `stats_cmd` (src/main.py lines 426-448). -/
def stats_cmd (cfg : Config) (st : BotState) (m : InMsg) :
    BotState × List Reply :=
  if in_admin_channel cfg m || from_admin_user cfg m then
    (st, [Reply.statsText st.db.length (count_by_status st.db)])
  else (st, [Reply.notAllowed])

/-- Embeds `broadcast_cmd` (src/main.py lines 450-477): fan out to every
known user id, count successful deliveries, report the count. -/
def broadcast_cmd (cfg : Config) (deliverOk : Int → Bool) (st : BotState)
    (m : InMsg) : BotState × List Reply :=
  if in_admin_channel cfg m || from_admin_user cfg m then
    match pySplitMax1 m.text with
    | [_, text_to_send] =>
      let ids := st.db.map (fun r => r.telegram_id)
      (st,
       (ids.filter (fun uid => deliverOk uid)).map
          (fun uid => Reply.broadcastMsg uid text_to_send)
        ++ [Reply.broadcastSent (ids.countP (fun uid => deliverOk uid))])
    | _ => (st, [Reply.usageBroadcast])
  else (st, [Reply.notAllowed])

/-- Command filter: first whitespace token of the text equals `/name`. -/
def isCommand (name : String) (text : String) : Bool :=
  match pySplit text with
  | tok :: _ => tok == "/" ++ name
  | [] => false

/-- One inbound message dispatched through the router, in registration
order (src/main.py lines 207-477): `/start`, the three reply-keyboard
buttons and the `done` trigger first, then the awaiting-identity FSM
handler, then the four admin commands. -/
def handle_message (cfg : Config) (now : Nat) (orc : Oracle) (st : BotState)
    (m : InMsg) : BotState × List Reply :=
  if m.text = "/start" then start_cmd cfg now st m
  else if m.text = "💰 Claim Bonus" then claim_bonus_btn cfg now st m
  else if pyLower m.text = "done" then done_requirements now st m
  else if m.text = "📊 My Status" then status_btn cfg now st m
  else if m.text = "ℹ️ Help" then help_btn st m
  else if st.awaiting m.from_id then
    receive_platform_username cfg now orc.adminNotifyOk st m
  else if isCommand "setstatus" m.text then setstatus_cmd cfg now st m
  else if isCommand "export" m.text then export_csv_cmd cfg st m
  else if isCommand "stats" m.text then stats_cmd cfg st m
  else if isCommand "broadcast" m.text then broadcast_cmd cfg orc.deliverOk st m
  else (st, [])

/-! ### Store lemmas -/

/-- A row returned by `findUser db tid` carries that id. -/
theorem findUser_eq_id {db : List UserRecord} {tid : Int} {r : UserRecord}
    (h : findUser db tid = some r) : r.telegram_id = tid := by
  induction db with
  | nil => simp [findUser] at h
  | cons a rest ih =>
    by_cases ha : a.telegram_id = tid
    · simp [findUser, ha] at h
      subst h
      exact ha
    · simp [findUser, ha] at h
      exact ih h

/-- Lookup distributes over append when the left part already matches. -/
theorem findUser_append_some {db1 : List UserRecord} {tid : Int}
    {r : UserRecord} (h : findUser db1 tid = some r) (db2 : List UserRecord) :
    findUser (db1 ++ db2) tid = some r := by
  induction db1 with
  | nil => simp [findUser] at h
  | cons a rest ih =>
    by_cases ha : a.telegram_id = tid
    · simp [findUser, ha] at h ⊢
      exact h
    · simp [findUser, ha] at h ⊢
      exact ih h

/-- Lookup falls through to the appended part when the left part has no
match. -/
theorem findUser_append_none {db1 : List UserRecord} {tid : Int}
    (h : findUser db1 tid = none) (db2 : List UserRecord) :
    findUser (db1 ++ db2) tid = findUser db2 tid := by
  induction db1 with
  | nil => simp
  | cons a rest ih =>
    by_cases ha : a.telegram_id = tid
    · simp [findUser, ha] at h
    · simp [findUser, ha] at h ⊢
      exact ih h

/-- Lookup after an id-preserving bulk update. -/
theorem findUser_updateWhere (f : UserRecord → UserRecord)
    (hf : ∀ r, (f r).telegram_id = r.telegram_id) (tid tid2 : Int)
    (db : List UserRecord) :
    findUser (updateWhere f tid db) tid2 =
      (findUser db tid2).map (fun r => if r.telegram_id = tid then f r else r) := by
  induction db with
  | nil => rfl
  | cons a rest ih =>
    by_cases ha : a.telegram_id = tid
    · by_cases ha2 : a.telegram_id = tid2
      · simp only [updateWhere, findUser, if_pos ha, if_pos ha2]
        rw [if_pos (show (f a).telegram_id = tid2 by rw [hf]; exact ha2)]
        simp [ha]
      · simp only [updateWhere, findUser, if_pos ha, if_neg ha2]
        rw [if_neg (show ¬(f a).telegram_id = tid2 by rw [hf]; exact ha2)]
        exact ih
    · by_cases ha2 : a.telegram_id = tid2
      · simp only [updateWhere, findUser, if_neg ha, if_pos ha2]
        simp [ha]
      · simp only [updateWhere, findUser, if_neg ha, if_neg ha2]
        exact ih

/-- `UPDATE ... WHERE` on an absent id rewrites nothing. -/
theorem updateWhere_absent (f : UserRecord → UserRecord) {tid : Int}
    {db : List UserRecord} (h : findUser db tid = none) :
    updateWhere f tid db = db := by
  induction db with
  | nil => rfl
  | cons a rest ih =>
    by_cases ha : a.telegram_id = tid
    · simp [findUser, ha] at h
    · simp [findUser, ha] at h
      simp [updateWhere, ha, ih h]

/-- `get_or_create_user` on an existing row returns it with no write. -/
theorem get_or_create_found {cfg : Config} {now : Nat} {db : List UserRecord}
    {tid : Int} {u : Option String} {r : UserRecord}
    (h : findUser db tid = some r) :
    get_or_create_user cfg now db tid u = (db, r) := by
  simp [get_or_create_user, h]

/-- After `get_or_create_user`, the row for that id is exactly the returned
record. -/
theorem findUser_get_or_create_self (cfg : Config) (now : Nat)
    (db : List UserRecord) (tid : Int) (u : Option String) :
    findUser (get_or_create_user cfg now db tid u).1 tid =
      some (get_or_create_user cfg now db tid u).2 := by
  cases h : findUser db tid with
  | some r => simp [get_or_create_user, h]
  | none =>
    simp [get_or_create_user, h, findUser_append_none h, findUser, newUser]

/-- `get_or_create_user` never disturbs a row that was already present. -/
theorem findUser_get_or_create_other {db : List UserRecord} {id2 : Int}
    {r : UserRecord} (cfg : Config) (now : Nat) (tid : Int) (u : Option String)
    (h : findUser db id2 = some r) :
    findUser (get_or_create_user cfg now db tid u).1 id2 = some r := by
  cases hh : findUser db tid with
  | some x => simpa [get_or_create_user, hh] using h
  | none => simp [get_or_create_user, hh, findUser_append_some h]

/-! ### Status preservation -/

/-- Every row present in `db` is still present in the successor table with
the same `status` field. -/
def StatusPres (db db2 : List UserRecord) : Prop :=
  ∀ id r, findUser db id = some r →
    ∃ r2, findUser db2 id = some r2 ∧ r2.status = r.status

theorem statusPres_refl (db : List UserRecord) : StatusPres db db :=
  fun _ r h => ⟨r, h, rfl⟩

theorem statusPres_trans {db1 db2 db3 : List UserRecord}
    (h1 : StatusPres db1 db2) (h2 : StatusPres db2 db3) :
    StatusPres db1 db3 := by
  intro id r h
  obtain ⟨r2, h2a, h2b⟩ := h1 id r h
  obtain ⟨r3, h3a, h3b⟩ := h2 id r2 h2a
  exact ⟨r3, h3a, h3b.trans h2b⟩

theorem statusPres_updateWhere (f : UserRecord → UserRecord)
    (hf : ∀ r, (f r).telegram_id = r.telegram_id)
    (hs : ∀ r, (f r).status = r.status) (tid : Int) (db : List UserRecord) :
    StatusPres db (updateWhere f tid db) := by
  intro id r h
  rw [findUser_updateWhere f hf tid id db, h]
  by_cases hr : r.telegram_id = tid <;> simp [hr, hs]

theorem statusPres_get_or_create (cfg : Config) (now : Nat)
    (db : List UserRecord) (tid : Int) (u : Option String) :
    StatusPres db (get_or_create_user cfg now db tid u).1 :=
  fun _ r h => ⟨r, findUser_get_or_create_other cfg now tid u h, rfl⟩

theorem statusPres_mark_signed_up (now : Nat) (db : List UserRecord)
    (tid : Int) : StatusPres db (mark_signed_up now db tid) :=
  statusPres_updateWhere
    (fun r => { r with signed_up := true, updated_at := now })
    (fun _ => rfl) (fun _ => rfl) tid db

theorem statusPres_save_platform_username (now : Nat) (db : List UserRecord)
    (tid : Int) (pu : String) :
    StatusPres db (save_platform_username now db tid pu) :=
  statusPres_updateWhere
    (fun r => { r with platform_username := some pu, bonus_claimed := true,
                       updated_at := now })
    (fun _ => rfl) (fun _ => rfl) tid db

/-! ### Routing lemmas for the dispatcher -/

theorem handle_message_start (cfg : Config) (now : Nat) (orc : Oracle)
    (st : BotState) (m : InMsg) (h : m.text = "/start") :
    handle_message cfg now orc st m = start_cmd cfg now st m := by
  unfold handle_message
  rw [h, if_pos rfl]

theorem handle_message_claim (cfg : Config) (now : Nat) (orc : Oracle)
    (st : BotState) (m : InMsg) (h : m.text = "💰 Claim Bonus") :
    handle_message cfg now orc st m = claim_bonus_btn cfg now st m := by
  unfold handle_message
  rw [h, if_neg (by decide), if_pos rfl]

theorem handle_message_done (cfg : Config) (now : Nat) (orc : Oracle)
    (st : BotState) (m : InMsg) (h : pyLower m.text = "done") :
    handle_message cfg now orc st m = done_requirements now st m := by
  have h1 : m.text ≠ "/start" := by
    intro e
    rw [e] at h
    exact absurd h (by decide)
  have h2 : m.text ≠ "💰 Claim Bonus" := by
    intro e
    rw [e] at h
    exact absurd h (by decide)
  unfold handle_message
  rw [if_neg h1, if_neg h2, if_pos h]

theorem handle_message_status (cfg : Config) (now : Nat) (orc : Oracle)
    (st : BotState) (m : InMsg) (h : m.text = "📊 My Status") :
    handle_message cfg now orc st m = status_btn cfg now st m := by
  unfold handle_message
  rw [h, if_neg (by decide), if_neg (by decide), if_neg (by decide), if_pos rfl]

theorem handle_message_receive (cfg : Config) (now : Nat) (orc : Oracle)
    (st : BotState) (m : InMsg)
    (h1 : m.text ≠ "/start") (h2 : m.text ≠ "💰 Claim Bonus")
    (h3 : pyLower m.text ≠ "done") (h4 : m.text ≠ "📊 My Status")
    (h5 : m.text ≠ "ℹ️ Help") (h6 : st.awaiting m.from_id = true) :
    handle_message cfg now orc st m =
      receive_platform_username cfg now orc.adminNotifyOk st m := by
  unfold handle_message
  rw [if_neg h1, if_neg h2, if_neg h3, if_neg h4, if_neg h5, if_pos h6]

/-! ### Handler state projections -/

theorem export_csv_cmd_state (cfg : Config) (st : BotState) (m : InMsg) :
    (export_csv_cmd cfg st m).1 = st := by
  unfold export_csv_cmd
  by_cases h : (in_admin_channel cfg m || from_admin_user cfg m) = true <;>
    simp [h]

theorem stats_cmd_state (cfg : Config) (st : BotState) (m : InMsg) :
    (stats_cmd cfg st m).1 = st := by
  unfold stats_cmd
  by_cases h : (in_admin_channel cfg m || from_admin_user cfg m) = true <;>
    simp [h]

theorem broadcast_cmd_state (cfg : Config) (d : Int → Bool) (st : BotState)
    (m : InMsg) : (broadcast_cmd cfg d st m).1 = st := by
  unfold broadcast_cmd
  by_cases h : (in_admin_channel cfg m || from_admin_user cfg m) = true
  · rw [if_pos h]
    split <;> rfl
  · rw [if_neg h]

theorem setstatus_cmd_rate (cfg : Config) (now : Nat) (st : BotState)
    (m : InMsg) : (setstatus_cmd cfg now st m).1.rate = st.rate := by
  unfold setstatus_cmd
  dsimp only
  repeat' split
  all_goals rfl

theorem setstatus_cmd_awaiting (cfg : Config) (now : Nat) (st : BotState)
    (m : InMsg) : (setstatus_cmd cfg now st m).1.awaiting = st.awaiting := by
  unfold setstatus_cmd
  dsimp only
  repeat' split
  all_goals rfl

/-! ### Concrete fixtures used by witnesses and counterexamples -/

/-- Sample configuration: admin user 1, admin channel `-100`, active
referral code `PROMO42`, 3-second cooldown. -/
def cfg0 : Config :=
  { ADMIN_USER_ID := some 1, ADMIN_CHANNEL_ID := some "-100",
    REF_CODE := "PROMO42", RATE_LIMIT_SECONDS := 3 }

/-- Oracle where every best-effort delivery succeeds. -/
def orc0 : Oracle := { adminNotifyOk := true, deliverOk := fun _ => true }

/-- Empty process state. -/
def st0 : BotState := { db := [], rate := fun _ => 0, awaiting := fun _ => false }

/-- A row created while the active referral code was `OLDCODE`. -/
def rec0 : UserRecord :=
  { telegram_id := 7, tg_username := some "joe",
    referral_agent := some "OLDCODE", signed_up := true,
    bonus_claimed := false, platform_username := none, status := "Pending",
    created_at := 0, updated_at := 0 }

/-- State holding just `rec0`. -/
def st1 : BotState :=
  { db := [rec0], rate := fun _ => 0, awaiting := fun _ => false }

/-- A row for user 5 who has signed up but not yet submitted. -/
def rec5 : UserRecord :=
  { telegram_id := 5, tg_username := some "u5",
    referral_agent := some "PROMO42", signed_up := true,
    bonus_claimed := false, platform_username := none, status := "Pending",
    created_at := 0, updated_at := 0 }

/-- State where user 5 exists and is in the awaiting-identity sub-state. -/
def st3 : BotState :=
  { db := [rec5], rate := fun _ => 0, awaiting := fun x => x == 5 }

/-- State where user 5 last triggered the claim flow at time 10. -/
def st4 : BotState :=
  { db := [], rate := fun _ => 10, awaiting := fun _ => false }

def mDone : InMsg := { chat_id := 5, from_id := 5, from_username := none, text := "Done" }

def mAb : InMsg := { chat_id := 5, from_id := 5, from_username := none, text := "ab" }

def mA : InMsg := { chat_id := 5, from_id := 5, from_username := none, text := "a" }

def mClaim : InMsg :=
  { chat_id := 5, from_id := 5, from_username := none, text := "💰 Claim Bonus" }

def mExport : InMsg :=
  { chat_id := -100, from_id := 1, from_username := none, text := "/export" }

def mBanned : InMsg :=
  { chat_id := -100, from_id := 1, from_username := none,
    text := "/setstatus 7 banned" }

def mVerifiedLc : InMsg :=
  { chat_id := -100, from_id := 1, from_username := none,
    text := "/setstatus 7 verified" }

def mUserCmd : InMsg :=
  { chat_id := 5, from_id := 5, from_username := none,
    text := "/setstatus 7 Verified" }

/-- Process state reached from `st0` after user 5 sends `Done` as the very
first inbound event: signed-up no-op, awaiting sub-state entered, still no
row. -/
def st2 : BotState := (handle_message cfg0 0 orc0 st0 mDone).1

def mStart : InMsg :=
  { chat_id := 5, from_id := 5, from_username := none, text := "/start" }

/-! ### Claim theorems -/

/-- Claim C10: `get_or_create` is idempotent — when a record already exists
it is returned as-is with no write to the store, so a second call in
succession returns exactly the first call's table and record and has no
side effect. -/
theorem C10_get_or_create_idempotent (cfg : Config) (now now2 : Nat)
    (db : List UserRecord) (tid : Int) (u u2 : Option String) :
    (∀ r, findUser db tid = some r →
      get_or_create_user cfg now db tid u = (db, r))
    ∧ get_or_create_user cfg now2 (get_or_create_user cfg now db tid u).1
        tid u2 =
      ((get_or_create_user cfg now db tid u).1,
       (get_or_create_user cfg now db tid u).2) := by
  constructor
  · intro r h
    exact get_or_create_found h
  · exact get_or_create_found (findUser_get_or_create_self cfg now db tid u)

/-- Witness for C10: looking up an existing row performs no write. -/
theorem C10_witness : get_or_create_user cfg0 3 [rec0] 7 none = ([rec0], rec0) :=
  (C10_get_or_create_idempotent cfg0 3 0 [rec0] 7 none none).1 rec0 rfl

/-- Claim C4: `set_status` returns false and leaves the store completely
unchanged when no record exists for the id; when a record exists it
succeeds, returns true, and the row now carries the new status and the
new timestamp. -/
theorem C4_set_status_spec (now : Nat) (db : List UserRecord) (tid : Int)
    (s : String) :
    (findUser db tid = none → set_status now db tid s = (db, false))
    ∧ (∀ r, findUser db tid = some r →
        (set_status now db tid s).2 = true ∧
        findUser (set_status now db tid s).1 tid =
          some { r with status := s, updated_at := now }) := by
  constructor
  · intro h
    simp [set_status, h]
  · intro r h
    have hid := findUser_eq_id h
    constructor
    · simp [set_status, h]
    · simp only [set_status, h]
      rw [findUser_updateWhere
        (fun r => { r with status := s, updated_at := now })
        (fun _ => rfl) tid tid db, h]
      simp [hid]

/-- Witness for C4 on a concrete empty and non-empty store. -/
theorem C4_witness :
    set_status 3 [] 7 "Verified" = ([], false)
    ∧ (set_status 9 [rec0] 7 "Verified").2 = true :=
  ⟨(C4_set_status_spec 3 [] 7 "Verified").1 rfl,
   ((C4_set_status_spec 9 [rec0] 7 "Verified").2 rec0 rfl).1⟩

/-- Claim C3: `save_submission` sets `submitted_identity` and the claim
flag and refreshes the timestamp while leaving every other field — in
particular `status` — unchanged, and no inbound event other than a
`/setstatus` command ever changes the status of an existing record. -/
theorem C3_status_only_admin_driven :
    (∀ now db tid pu r, findUser db tid = some r →
      findUser (save_platform_username now db tid pu) tid =
        some { r with platform_username := some pu, bonus_claimed := true,
                      updated_at := now })
    ∧ (∀ cfg now orc st m, isCommand "setstatus" m.text = false →
        StatusPres st.db (handle_message cfg now orc st m).1.db) := by
  constructor
  · intro now db tid pu r h
    have hid := findUser_eq_id h
    unfold save_platform_username
    rw [findUser_updateWhere
      (fun r => { r with platform_username := some pu, bonus_claimed := true,
                         updated_at := now })
      (fun _ => rfl) tid tid db, h]
    simp [hid]
  · intro cfg now orc st m hcmd
    unfold handle_message
    by_cases h1 : m.text = "/start"
    · rw [if_pos h1]
      exact statusPres_get_or_create cfg now st.db m.from_id m.from_username
    rw [if_neg h1]
    by_cases h2 : m.text = "💰 Claim Bonus"
    · rw [if_pos h2]
      unfold claim_bonus_btn
      dsimp only
      by_cases hc : (can_proceed cfg now st.rate m.from_id).2 = true
      · rw [if_pos hc]
        exact statusPres_get_or_create cfg now st.db m.from_id m.from_username
      · rw [if_neg hc]
        exact statusPres_refl st.db
    rw [if_neg h2]
    by_cases h3 : pyLower m.text = "done"
    · rw [if_pos h3]
      exact statusPres_mark_signed_up now st.db m.from_id
    rw [if_neg h3]
    by_cases h4 : m.text = "📊 My Status"
    · rw [if_pos h4]
      exact statusPres_get_or_create cfg now st.db m.from_id m.from_username
    rw [if_neg h4]
    by_cases h5 : m.text = "ℹ️ Help"
    · rw [if_pos h5]
      exact statusPres_refl st.db
    rw [if_neg h5]
    by_cases h6 : st.awaiting m.from_id = true
    · rw [if_pos h6]
      unfold receive_platform_username
      dsimp only
      by_cases hl : (pyStrip m.text).length < 2
      · rw [if_pos hl]
        exact statusPres_refl st.db
      · rw [if_neg hl]
        exact statusPres_trans
          (statusPres_save_platform_username now st.db m.from_id (pyStrip m.text))
          (statusPres_get_or_create cfg now _ m.from_id m.from_username)
    rw [if_neg h6]
    rw [if_neg (by rw [hcmd]; exact Bool.false_ne_true :
      ¬ isCommand "setstatus" m.text = true)]
    by_cases h8 : isCommand "export" m.text = true
    · rw [if_pos h8, export_csv_cmd_state]
      exact statusPres_refl st.db
    rw [if_neg h8]
    by_cases h9 : isCommand "stats" m.text = true
    · rw [if_pos h9, stats_cmd_state]
      exact statusPres_refl st.db
    rw [if_neg h9]
    by_cases h10 : isCommand "broadcast" m.text = true
    · rw [if_pos h10, broadcast_cmd_state]
      exact statusPres_refl st.db
    rw [if_neg h10]
    exact statusPres_refl st.db

/-- Witness for C3: a concrete resubmission leaves `status` `Pending` and
`created_at` untouched while recording the identity text. -/
theorem C3_witness :
    findUser (save_platform_username 9 [rec0] 7 "ab") 7 =
      some { rec0 with platform_username := some "ab", bonus_claimed := true,
                       updated_at := 9 } :=
  C3_status_only_admin_driven.1 9 [rec0] 7 "ab" rec0 rfl

/-- Claim C5: the `/setstatus` argument is normalized by `capitalize` and
accepted exactly when the normalized word is `Pending`, `Verified` or
`Rejected`; any other word is rejected with a validity message and no
store mutation, while a lowercase valid name normalizes and succeeds. -/
theorem C5_setstatus_normalization (cfg : Config) (now : Nat) (st : BotState)
    (m : InMsg) (idStr stStr : String) (target_id : Int)
    (hauth : (in_admin_channel cfg m || from_admin_user cfg m) = true)
    (hsplit : pySplit m.text = ["/setstatus", idStr, stStr])
    (hid : pyInt idStr = some target_id) :
    (¬(pyCapitalize stStr = "Pending" ∨ pyCapitalize stStr = "Verified" ∨
        pyCapitalize stStr = "Rejected") →
      setstatus_cmd cfg now st m = (st, [Reply.statusMustBe]))
    ∧ ((pyCapitalize stStr = "Pending" ∨ pyCapitalize stStr = "Verified" ∨
        pyCapitalize stStr = "Rejected") →
      ∀ r, findUser st.db target_id = some r →
        findUser (setstatus_cmd cfg now st m).1.db target_id =
          some { r with status := pyCapitalize stStr, updated_at := now } ∧
        (setstatus_cmd cfg now st m).2 =
          [Reply.updatedStatus target_id (pyCapitalize stStr),
           Reply.statusNotice target_id (pyCapitalize stStr)]) := by
  constructor
  · intro hval
    unfold setstatus_cmd
    rw [if_pos hauth, hsplit]
    dsimp only
    rw [hid]
    dsimp only
    rw [if_neg hval]
  · intro hval r hr
    have hred := findUser_eq_id hr
    have hss : set_status now st.db target_id (pyCapitalize stStr) =
        (updateWhere
          (fun r => { r with status := pyCapitalize stStr, updated_at := now })
          target_id st.db, true) := by
      simp [set_status, hr]
    unfold setstatus_cmd
    rw [if_pos hauth, hsplit]
    dsimp only
    rw [hid]
    dsimp only
    rw [if_pos hval, hss]
    dsimp only
    rw [if_pos rfl]
    constructor
    · rw [findUser_updateWhere
        (fun r => { r with status := pyCapitalize stStr, updated_at := now })
        (fun _ => rfl) target_id target_id st.db, hr]
      simp [hred]
    · rfl

/-- Witness for C5: `banned` is rejected with no mutation, `verified`
normalizes to `Verified` and updates the row. -/
theorem C5_witness :
    pyCapitalize "banned" = "Banned"
    ∧ pyCapitalize "verified" = "Verified"
    ∧ setstatus_cmd cfg0 9 st1 mBanned = (st1, [Reply.statusMustBe])
    ∧ findUser (setstatus_cmd cfg0 9 st1 mVerifiedLc).1.db 7 =
        some { rec0 with status := "Verified", updated_at := 9 } :=
  ⟨rfl, rfl,
   (C5_setstatus_normalization cfg0 9 st1 mBanned "7" "banned" 7 (by decide)
     (by decide) (by decide)).1 (by decide),
   ((C5_setstatus_normalization cfg0 9 st1 mVerifiedLc "7" "verified" 7
     (by decide) (by decide) (by decide)).2 (by decide) rec0 rfl).1⟩

/-- Claim C1 (code bug): the exported CSV carries the process-wide code
active at export time (`PROMO42`) in the referral column, although the
stored row was created under `OLDCODE` — `export_csv_cmd` writes
`REF_CODE` instead of the fetched `referral_agent` column. -/
theorem C1_export_writes_active_code :
    (handle_message cfg0 0 orc0 st1 mExport).2 =
      [Reply.exportCsv
        [export_header, ["7", "joe", "PROMO42", "1", "0", "", "Pending", "0"]]]
    ∧ rec0.referral_agent = some "OLDCODE"
    ∧ cfg0.REF_CODE = "PROMO42"
    ∧ ("PROMO42" : String) ≠ "OLDCODE" :=
  ⟨by decide, rfl, rfl, by decide⟩

/-- Claim C2 counterexample: user 5's very first inbound event is the
`Done` confirmation; afterwards the store still has no record for user 5
(and the user is nevertheless in the awaiting-identity sub-state). -/
theorem C2_counterexample_done_first :
    findUser st2.db 5 = none ∧ st2.awaiting 5 = true :=
  ⟨by decide, rfl⟩

/-- Claim C2 (amended): a first `/start`, status, or accepted claim-bonus
event does create the record, but a done/confirmation event creates
nothing — when no record exists, `mark_signed_up` is a silent no-op and
the store is left unchanged. -/
theorem C2_first_contact_creation :
    (∀ cfg now orc st m,
      (m.text = "/start" ∨ m.text = "📊 My Status" ∨
       (m.text = "💰 Claim Bonus" ∧
        ¬ now - st.rate m.from_id < cfg.RATE_LIMIT_SECONDS)) →
      (findUser (handle_message cfg now orc st m).1.db m.from_id).isSome = true)
    ∧ (∀ cfg now orc st m, pyLower m.text = "done" →
        findUser st.db m.from_id = none →
        (handle_message cfg now orc st m).1.db = st.db) := by
  constructor
  · intro cfg now orc st m h
    rcases h with h | h | ⟨h, hrate⟩
    · rw [handle_message_start cfg now orc st m h]
      unfold start_cmd
      dsimp only
      rw [findUser_get_or_create_self]
      rfl
    · rw [handle_message_status cfg now orc st m h]
      unfold status_btn
      dsimp only
      rw [findUser_get_or_create_self]
      rfl
    · rw [handle_message_claim cfg now orc st m h]
      unfold claim_bonus_btn
      dsimp only
      have hc : (can_proceed cfg now st.rate m.from_id).2 = true := by
        unfold can_proceed
        dsimp only
        rw [if_neg hrate]
      rw [if_pos hc]
      dsimp only
      rw [findUser_get_or_create_self]
      rfl
  · intro cfg now orc st m h habs
    rw [handle_message_done cfg now orc st m h]
    unfold done_requirements mark_signed_up
    dsimp only
    exact updateWhere_absent _ habs

/-- Witness for the amended C2: a first `/start` creates the record. -/
theorem C2_witness :
    (findUser (handle_message cfg0 0 orc0 st0 mStart).1.db 5).isSome = true :=
  C2_first_contact_creation.1 cfg0 0 orc0 st0 mStart (Or.inl rfl)

/-- Claim C6 counterexample: user 5 reaches the awaiting-identity
sub-state with no stored record (first event `Done`), then sends the
valid text `ab`; the handler confirms and clears the sub-state, but the
resulting record has no `submitted_identity` and `claim_flag` is false —
the submission is not persisted. -/
theorem C6_counterexample_submission_lost :
    st2.awaiting 5 = true ∧
    findUser (handle_message cfg0 1 orc0 st2 mAb).1.db 5 =
      some { telegram_id := 5, tg_username := none,
             referral_agent := some "PROMO42", signed_up := false,
             bonus_claimed := false, platform_username := none,
             status := "Pending", created_at := 1, updated_at := 1 } :=
  ⟨rfl, by decide⟩

/-- Claim C6 (amended): for a user in the awaiting-identity sub-state who
has a stored record and sends free text of trimmed length at least 2, the
submission is persisted, the admin notification is attempted, the
sub-state is exited, and a confirmation is emitted whether or not the
notification attempt succeeds. -/
theorem C6_submission_recorded (cfg : Config) (now : Nat) (orc : Oracle)
    (st : BotState) (m : InMsg) (r : UserRecord)
    (h1 : m.text ≠ "/start") (h2 : m.text ≠ "💰 Claim Bonus")
    (h3 : pyLower m.text ≠ "done") (h4 : m.text ≠ "📊 My Status")
    (h5 : m.text ≠ "ℹ️ Help") (h6 : st.awaiting m.from_id = true)
    (hlen : 2 ≤ (pyStrip m.text).length)
    (hr : findUser st.db m.from_id = some r) :
    findUser (handle_message cfg now orc st m).1.db m.from_id =
      some { r with platform_username := some (pyStrip m.text),
                    bonus_claimed := true, updated_at := now }
    ∧ (handle_message cfg now orc st m).1.awaiting m.from_id = false
    ∧ (handle_message cfg now orc st m).2 =
        [Reply.adminSummary r.telegram_id r.tg_username r.referral_agent
           (pyStrip m.text) r.status,
         if orc.adminNotifyOk then Reply.submissionCompleteOk
         else Reply.submissionReceived] := by
  rw [handle_message_receive cfg now orc st m h1 h2 h3 h4 h5 h6]
  unfold receive_platform_username
  dsimp only
  rw [if_neg (by omega : ¬ (pyStrip m.text).length < 2)]
  have hid := findUser_eq_id hr
  have hsave : findUser
      (save_platform_username now st.db m.from_id (pyStrip m.text)) m.from_id =
      some { r with platform_username := some (pyStrip m.text),
                    bonus_claimed := true, updated_at := now } := by
    unfold save_platform_username
    rw [findUser_updateWhere
      (fun r => { r with platform_username := some (pyStrip m.text),
                         bonus_claimed := true, updated_at := now })
      (fun _ => rfl) m.from_id m.from_id st.db, hr]
    simp [hid]
  rw [get_or_create_found hsave]
  dsimp only
  refine ⟨hsave, ?_, rfl⟩
  simp

/-- Witness for the amended C6 at a concrete state with a stored record. -/
theorem C6_witness :
    findUser (handle_message cfg0 9 orc0 st3 mAb).1.db 5 =
      some { rec5 with platform_username := some "ab", bonus_claimed := true,
                       updated_at := 9 } :=
  (C6_submission_recorded cfg0 9 orc0 st3 mAb rec5 (by decide) (by decide)
    (by decide) (by decide) (by decide) rfl (by decide) rfl).1

/-- Claim C7: free text of trimmed length below 2 from a user in the
awaiting-identity sub-state is rejected with a validation warning and the
whole process state — store and sub-state included — is left untouched. -/
theorem C7_short_text_rejected (cfg : Config) (now : Nat) (orc : Oracle)
    (st : BotState) (m : InMsg)
    (h1 : m.text ≠ "/start") (h2 : m.text ≠ "💰 Claim Bonus")
    (h3 : pyLower m.text ≠ "done") (h4 : m.text ≠ "📊 My Status")
    (h5 : m.text ≠ "ℹ️ Help") (h6 : st.awaiting m.from_id = true)
    (hlen : (pyStrip m.text).length < 2) :
    handle_message cfg now orc st m = (st, [Reply.invalidUsernameWarning]) := by
  rw [handle_message_receive cfg now orc st m h1 h2 h3 h4 h5 h6]
  unfold receive_platform_username
  dsimp only
  rw [if_pos hlen]

/-- Witness for C7: the one-character text `a` is rejected and the
sub-state persists. -/
theorem C7_witness :
    handle_message cfg0 9 orc0 st3 mA = (st3, [Reply.invalidUsernameWarning])
    ∧ st3.awaiting 5 = true :=
  ⟨C7_short_text_rejected cfg0 9 orc0 st3 mA (by decide) (by decide)
    (by decide) (by decide) (by decide) rfl (by decide), rfl⟩

/-- Claim C8: each of the four admin commands, when the sender is neither
in the admin channel nor the admin user, is rejected with its fixed
denial reply and leaves the process state unchanged. -/
theorem C8_admin_commands_denied (cfg : Config) (now : Nat)
    (dOk : Int → Bool) (st : BotState) (m : InMsg)
    (h : (in_admin_channel cfg m || from_admin_user cfg m) = false) :
    setstatus_cmd cfg now st m = (st, [Reply.notAllowedHere])
    ∧ export_csv_cmd cfg st m = (st, [Reply.notAllowed])
    ∧ stats_cmd cfg st m = (st, [Reply.notAllowed])
    ∧ broadcast_cmd cfg dOk st m = (st, [Reply.notAllowed]) := by
  have hn : ¬ (in_admin_channel cfg m || from_admin_user cfg m) = true := by
    rw [h]
    exact Bool.false_ne_true
  refine ⟨?_, ?_, ?_, ?_⟩
  · unfold setstatus_cmd
    rw [if_neg hn]
  · unfold export_csv_cmd
    rw [if_neg hn]
  · unfold stats_cmd
    rw [if_neg hn]
  · unfold broadcast_cmd
    rw [if_neg hn]

/-- Witness for C8: an ordinary user in an ordinary chat is denied. -/
theorem C8_witness :
    setstatus_cmd cfg0 0 st1 mUserCmd = (st1, [Reply.notAllowedHere])
    ∧ broadcast_cmd cfg0 (fun _ => true) st1 mUserCmd =
        (st1, [Reply.notAllowed]) :=
  ⟨(C8_admin_commands_denied cfg0 0 (fun _ => true) st1 mUserCmd (by decide)).1,
   (C8_admin_commands_denied cfg0 0 (fun _ => true) st1 mUserCmd (by decide)).2.2.2⟩

/-- Claim C9: only the claim-bonus trigger is rate-gated — inside the
cooldown it is rejected with a retry-later reply and no change to store
or rate map; once the cooldown has elapsed it succeeds, stamps the rate
map, and serves the instructions; every other event leaves the rate map
untouched and is never rejected with the retry-later reply. -/
theorem C9_claim_rate_limited (cfg : Config) (now : Nat) (orc : Oracle)
    (st : BotState) (m : InMsg) :
    ((m.text = "💰 Claim Bonus" ∧
        now - st.rate m.from_id < cfg.RATE_LIMIT_SECONDS) →
      handle_message cfg now orc st m = (st, [Reply.retryLater]))
    ∧ ((m.text = "💰 Claim Bonus" ∧
        cfg.RATE_LIMIT_SECONDS ≤ now - st.rate m.from_id) →
      (handle_message cfg now orc st m).1.rate m.from_id = now ∧
      (handle_message cfg now orc st m).2 = [Reply.claimInstructions] ∧
      (findUser (handle_message cfg now orc st m).1.db m.from_id).isSome = true)
    ∧ (m.text ≠ "💰 Claim Bonus" →
      (handle_message cfg now orc st m).1.rate = st.rate ∧
      Reply.retryLater ∉ (handle_message cfg now orc st m).2) := by
  refine ⟨?_, ?_, ?_⟩
  · rintro ⟨ht, hlt⟩
    rw [handle_message_claim cfg now orc st m ht]
    unfold claim_bonus_btn can_proceed
    dsimp only
    rw [if_pos hlt]
    exact rfl
  · rintro ⟨ht, hge⟩
    rw [handle_message_claim cfg now orc st m ht]
    unfold claim_bonus_btn can_proceed
    dsimp only
    rw [if_neg (by omega : ¬ now - st.rate m.from_id < cfg.RATE_LIMIT_SECONDS)]
    dsimp only
    rw [if_pos rfl]
    dsimp only
    refine ⟨by simp, rfl, ?_⟩
    rw [findUser_get_or_create_self]
    rfl
  · intro hne
    unfold handle_message
    by_cases h1 : m.text = "/start"
    · rw [if_pos h1]
      exact ⟨rfl, by simp [start_cmd]⟩
    rw [if_neg h1, if_neg hne]
    by_cases h3 : pyLower m.text = "done"
    · rw [if_pos h3]
      exact ⟨rfl, by simp [done_requirements]⟩
    rw [if_neg h3]
    by_cases h4 : m.text = "📊 My Status"
    · rw [if_pos h4]
      exact ⟨rfl, by simp [status_btn]⟩
    rw [if_neg h4]
    by_cases h5 : m.text = "ℹ️ Help"
    · rw [if_pos h5]
      exact ⟨rfl, by simp [help_btn]⟩
    rw [if_neg h5]
    by_cases h6 : st.awaiting m.from_id = true
    · rw [if_pos h6]
      constructor
      · unfold receive_platform_username
        dsimp only
        by_cases hl : (pyStrip m.text).length < 2
        · rw [if_pos hl]
        · rw [if_neg hl]
      · unfold receive_platform_username
        dsimp only
        by_cases hl : (pyStrip m.text).length < 2
        · rw [if_pos hl]
          simp
        · rw [if_neg hl]
          simp only [List.mem_cons, List.not_mem_nil, or_false]
          push_neg
          refine ⟨by simp, ?_⟩
          split <;> simp
    rw [if_neg h6]
    by_cases h7 : isCommand "setstatus" m.text = true
    · rw [if_pos h7]
      refine ⟨setstatus_cmd_rate cfg now st m, ?_⟩
      unfold setstatus_cmd
      dsimp only
      repeat' split
      all_goals simp
    rw [if_neg h7]
    by_cases h8 : isCommand "export" m.text = true
    · rw [if_pos h8]
      refine ⟨by rw [export_csv_cmd_state], ?_⟩
      unfold export_csv_cmd
      split <;> simp
    rw [if_neg h8]
    by_cases h9 : isCommand "stats" m.text = true
    · rw [if_pos h9]
      refine ⟨by rw [stats_cmd_state], ?_⟩
      unfold stats_cmd
      split <;> simp
    rw [if_neg h9]
    by_cases h10 : isCommand "broadcast" m.text = true
    · rw [if_pos h10]
      refine ⟨by rw [broadcast_cmd_state], ?_⟩
      unfold broadcast_cmd
      split
      · split <;> simp
      · simp
    rw [if_neg h10]
    exact ⟨rfl, by simp⟩

/-- Witness for C9: within the 3-unit cooldown a second trigger is
rejected; after it, a trigger succeeds. -/
theorem C9_witness :
    handle_message cfg0 11 orc0 st4 mClaim = (st4, [Reply.retryLater])
    ∧ (handle_message cfg0 13 orc0 st4 mClaim).2 = [Reply.claimInstructions] :=
  ⟨(C9_claim_rate_limited cfg0 11 orc0 st4 mClaim).1 ⟨rfl, by decide⟩,
   ((C9_claim_rate_limited cfg0 13 orc0 st4 mClaim).2.1 ⟨rfl, by decide⟩).2.1⟩

end ReferralBot
